import Mathlib

/-!
Shallow embedding of the hotel-data normalization and reconciliation program
(`src/main.py`): the canonical `Hotel` entity, the three supplier adapters
(`Acme`, `Paperflies`, `Patagonia`), the reconciliation fold
`merge_and_save`, and the query function `find`, together with theorems
about the per-field merge rules, adapter defaulting, and querying.

Python dictionaries keyed by hotel id are modelled as insertion-ordered
association lists; Python `list(set(xs))` is modelled as `List.dedup`
(same elements, duplicates collapsed, a deterministic order); Python
truthiness of the nullable location values is modelled by `PyVal.truthy`.
-/

/-- The fixed general amenity vocabulary (`GENERAL_AMENITIES` in the source). -/
def GENERAL_AMENITIES : List String :=
  ["outdoor pool", "indoor pool", "business center", "childcare", "wifi",
   "dry cleaning", "breakfast"]

/-- The fixed room amenity vocabulary (`ROOM_AMENITIES` in the source). -/
def ROOM_AMENITIES : List String :=
  ["aircon", "tv", "coffee machine", "kettle", "hair dryer", "iron", "bathtub"]

/-- A nullable Python value as stored in the `location` dict: `None`, a
string, or a number (lat/lng).  Numbers are modelled as integers; none of
the verified properties depends on fractional values, only on truthiness
and equality. -/
inductive PyVal where
  | vnone : PyVal
  | vstr : String → PyVal
  | vnum : Int → PyVal
deriving DecidableEq

/-- Python truthiness for a nullable value: `None`, `""` and `0` are falsy. -/
def PyVal.truthy : PyVal → Bool
  | .vnone => false
  | .vstr s => s != ""
  | .vnum n => n != 0

/-- The canonical `location` dict: five independently nullable fields. -/
structure Location where
  lat : PyVal
  lng : PyVal
  address : PyVal
  city : PyVal
  country : PyVal
deriving DecidableEq

/-- Selector for the five keys of the `location` dict. -/
inductive LocField where
  | lat
  | lng
  | address
  | city
  | country
deriving DecidableEq

/-- Read one field of a `Location` by key. -/
def Location.get : Location → LocField → PyVal
  | l, .lat => l.lat
  | l, .lng => l.lng
  | l, .address => l.address
  | l, .city => l.city
  | l, .country => l.country

/-- The canonical `amenities` dict: `general` and `room` lists. -/
structure Amenities where
  general : List String
  room : List String
deriving DecidableEq

/-- One canonical image entry, a `{link, description}` pair. -/
structure Image where
  link : String
  description : String
deriving DecidableEq

/-- The canonical `images` dict: `rooms`, `site` and `amenities` lists. -/
structure Images where
  rooms : List Image
  site : List Image
  amenities : List Image
deriving DecidableEq

/-- The canonical `Hotel` entity (the `@dataclass Hotel` of the source). -/
structure Hotel where
  id : String
  destination_id : Int
  name : String
  description : String
  location : Location
  amenities : Amenities
  images : Images
  booking_conditions : List String
deriving DecidableEq

/-- Python `list(set(xs))`: the same elements with duplicates collapsed, in
a deterministic order, modelled as `List.dedup`. -/
def pyListSet [DecidableEq α] (xs : List α) : List α := xs.dedup

/-- Does the list starting here begin with `pat`?  Helper for the Python
substring test. -/
def listStartsWith [BEq α] : List α → List α → Bool
  | [], _ => true
  | _ :: _, [] => false
  | a :: as, b :: bs => a == b && listStartsWith as bs

/-- Does `pat` occur contiguously inside the second list?  Helper for the
Python substring test. -/
def listHasInfix [BEq α] (pat : List α) : List α → Bool
  | [] => listStartsWith pat []
  | b :: bs => listStartsWith pat (b :: bs) || listHasInfix pat bs

/-- Python `str.strip()`: drop leading and trailing whitespace, written
over the character list so that it reduces under `decide`. -/
def pyStrip (s : String) : String :=
  String.mk (((s.data.dropWhile Char.isWhitespace).reverse.dropWhile Char.isWhitespace).reverse)

/-- Python `str.lower()`, written over the character list so that it
reduces under `decide`. -/
def pyLower (s : String) : String :=
  String.mk (s.data.map Char.toLower)

/-- Python `pat in hay` on strings: contiguous substring test. -/
def strContains (hay pat : String) : Bool := listHasInfix pat.data hay.data

/-- The source's `camel_to_snake_case`: insert a space before every
uppercase letter that is not the first character (the regex
`(?<!^)([A-Z])` replaced by a space and the letter), then lowercase the
whole string. -/
def camelSub : List Char → List Char
  | [] => []
  | c :: cs => (if c.isUpper then [' ', c] else [c]) ++ camelSub cs

/-- Spacing-and-lowercasing normalizer used by the Acme adapter. -/
def camel_to_snake_case (s : String) : String :=
  match s.data with
  | [] => ""
  | c :: cs => String.mk ((c :: camelSub cs).map Char.toLower)

/-- Raw Acme record.  Every key is present (the adapter reads each key
directly, so a missing key is a malformed record outside the model);
optional values may be null, modelled by `Option` or a null `PyVal`. -/
structure AcmeDto where
  Id : String
  DestinationId : Int
  Name : String
  Description : Option String
  Latitude : PyVal
  Longitude : PyVal
  Address : Option String
  PostalCode : Option String
  City : PyVal
  Country : PyVal
  Facilities : Option (List String)
deriving DecidableEq

/-- The Acme adapter's nested `parse_amenities`: normalize each facility
with `camel_to_snake_case` after stripping, keep those in each vocabulary. -/
def acmeParseAmenities (facilities : List String) : Amenities :=
  { general := (facilities.map (fun a => camel_to_snake_case (pyStrip a))).filter
      (fun f => f ∈ GENERAL_AMENITIES)
    room := (facilities.map (fun a => camel_to_snake_case (pyStrip a))).filter
      (fun f => f ∈ ROOM_AMENITIES) }

/-- The Acme adapter's `parse`: capitalized keys, address merged with the
postal code when the postal code is truthy and not already a substring of
the address, facilities classified through `camel_to_snake_case`. -/
def Acme.parse (dto : AcmeDto) : Hotel :=
  let address := pyStrip (dto.Address.getD "")
  let address :=
    match dto.PostalCode with
    | some pc =>
        if pc != "" && !(strContains address pc) then address ++ ", " ++ pc
        else address
    | none => address
  { id := dto.Id
    destination_id := dto.DestinationId
    name := dto.Name
    description := dto.Description.getD ""
    location :=
      { lat := dto.Latitude
        lng := dto.Longitude
        address := .vstr address
        city := dto.City
        country := dto.Country }
    amenities := acmeParseAmenities (dto.Facilities.getD [])
    images := { rooms := [], site := [], amenities := [] }
    booking_conditions := [] }

/-- Three-state presence of a dict key: the key can be absent, present
with value null, or present with a value.  Used where the source code
distinguishes the three cases. -/
inductive PyField (α : Type) where
  | absent : PyField α
  | null : PyField α
  | val : α → PyField α
deriving DecidableEq

/-- The nested `location` dict of a Paperflies record: it carries at most
`address` and `country`; a missing key reads as null via `.get`. -/
structure PFLocation where
  address : Option String
  country : Option String
deriving DecidableEq

/-- One raw Paperflies image entry, a `{link, caption}` pair. -/
structure PFImg where
  link : String
  caption : String
deriving DecidableEq

/-- The `images` dict of a Paperflies record: `rooms` and `site` lists
(a missing inner key reads as the empty list). -/
structure PFImages where
  rooms : List PFImg
  site : List PFImg
deriving DecidableEq

/-- Raw Paperflies record.  `details`, `amenities` and `images` are read
with null-coalescing `or` defaults, modelled as `Option` (null maps to
`none`); `location` is read with `dto.get("location", {})` and then
accessed with `.get`, so the three-state `Field` is needed: an absent key
defaults to the empty dict but a null value makes the subsequent
`location.get(...)` raise; `booking_conditions` is read with a defaulted
`.get`, so an absent key yields the empty list. -/
structure PaperfliesDto where
  hotel_id : String
  destination_id : Int
  hotel_name : String
  details : Option String
  location : PyField PFLocation
  amenities : Option Amenities
  images : Option PFImages
  booking_conditions : Option (List String)
deriving DecidableEq

/-- Inject an optional string into a nullable location value. -/
def optPyStr : Option String → PyVal
  | none => .vnone
  | some s => .vstr s

/-- Body of the Paperflies `parse` once the nested `location` dict has
been resolved to an actual dict. -/
def paperfliesHotel (dto : PaperfliesDto) (location : PFLocation) : Hotel :=
  let images := dto.images.getD { rooms := [], site := [] }
  { id := dto.hotel_id
    destination_id := dto.destination_id
    name := dto.hotel_name
    description := dto.details.getD ""
    location :=
      { lat := .vnone
        lng := .vnone
        address := optPyStr location.address
        city := .vnone
        country := optPyStr location.country }
    amenities := dto.amenities.getD { general := [], room := [] }
    images :=
      { rooms := images.rooms.map (fun img => { link := img.link, description := img.caption })
        site := images.site.map (fun img => { link := img.link, description := img.caption })
        amenities := [] }
    booking_conditions := dto.booking_conditions.getD [] }

/-- The Paperflies adapter's `parse`.  `location = dto.get("location", {})`
defaults an absent key to the empty dict, but when the key is present with
value null the subsequent `location.get("address")` raises
(`AttributeError` on `None`), modelled by returning `none`. -/
def Paperflies.parse (dto : PaperfliesDto) : Option Hotel :=
  match dto.location with
  | .null => none
  | .absent => some (paperfliesHotel dto { address := none, country := none })
  | .val l => some (paperfliesHotel dto l)

/-- One raw Patagonia image entry, a `{url, description}` pair. -/
structure PatImg where
  url : String
  description : String
deriving DecidableEq

/-- The `images` dict of a Patagonia record: `rooms` and `amenities` lists. -/
structure PatImages where
  rooms : List PatImg
  amenities : List PatImg
deriving DecidableEq

/-- Raw Patagonia record.  Every key is present; optional values may be
null. -/
structure PatagoniaDto where
  id : String
  destination : Int
  name : String
  info : Option String
  lat : PyVal
  lng : PyVal
  address : PyVal
  amenities : Option (List String)
  images : Option PatImages
deriving DecidableEq

/-- The Patagonia adapter's nested `parse_amenities`: lowercase and strip
each token, keep those in each vocabulary. -/
def patagoniaParseAmenities (amenities : List String) : Amenities :=
  { general := (amenities.map (fun a => pyStrip (pyLower a))).filter
      (fun f => f ∈ GENERAL_AMENITIES)
    room := (amenities.map (fun a => pyStrip (pyLower a))).filter
      (fun f => f ∈ ROOM_AMENITIES) }

/-- The Patagonia adapter's `parse`: lowercase keys, space-delimited
amenity classification, `{url, description}` image entries for `rooms`
and `amenities`, never `site`. -/
def Patagonia.parse (dto : PatagoniaDto) : Hotel :=
  { id := dto.id
    destination_id := dto.destination
    name := dto.name
    description := dto.info.getD ""
    location :=
      { lat := dto.lat
        lng := dto.lng
        address := dto.address
        city := .vnone
        country := .vnone }
    amenities := patagoniaParseAmenities (dto.amenities.getD [])
    images :=
      { rooms := (dto.images.getD { rooms := [], amenities := [] }).rooms.map
          (fun img => { link := img.url, description := img.description })
        site := []
        amenities := (dto.images.getD { rooms := [], amenities := [] }).amenities.map
          (fun img => { link := img.url, description := img.description }) }
    booking_conditions := [] }

/-- Per-field merge rule for one `location` field: the dict comprehension
`newLocation = {k: v for k, v in hotel.location.items() if not
existing.location[k] and hotel.location[k]}` followed by
`{**existing.location, **newLocation}` replaces a field exactly when the
existing value is falsy and the incoming one is truthy. -/
def mergeLocField (e h : PyVal) : PyVal :=
  if !e.truthy && h.truthy then h else e

/-- Field-wise merge of the whole `location` dict. -/
def mergeLocation (e h : Location) : Location :=
  { lat := mergeLocField e.lat h.lat
    lng := mergeLocField e.lng h.lng
    address := mergeLocField e.address h.address
    city := mergeLocField e.city h.city
    country := mergeLocField e.country h.country }

/-- The `else` branch of `merge_and_save`: fold the incoming `hotel` into
the already-registered `existing` record, field by field.  `id` and
`destination_id` are inherited from `existing` because the branch never
assigns them. -/
def mergeHotel (existing hotel : Hotel) : Hotel :=
  { existing with
    name := if hotel.name = "" then existing.name else hotel.name
    description :=
      if existing.description.length < hotel.description.length then hotel.description
      else existing.description
    location := mergeLocation existing.location hotel.location
    amenities :=
      { general := pyListSet (existing.amenities.general ++ hotel.amenities.general)
        room := pyListSet (existing.amenities.room ++ hotel.amenities.room) }
    images :=
      { rooms := existing.images.rooms ++
          hotel.images.rooms.filter (fun img => img ∉ existing.images.rooms)
        site := existing.images.site ++
          hotel.images.site.filter (fun img => img ∉ existing.images.site)
        amenities := existing.images.amenities ++
          hotel.images.amenities.filter (fun img => img ∉ existing.images.amenities) }
    booking_conditions :=
      pyListSet (existing.booking_conditions ++ hotel.booking_conditions) }

/-- The service's hotel dict, modelled as an insertion-ordered association
list from id to `Hotel`. -/
abbrev HMap := List (String × Hotel)

/-- Replace the value stored at `key` (first occurrence), leaving the map
unchanged when the key is absent. -/
def updateMap : HMap → String → Hotel → HMap
  | [], _, _ => []
  | (k, v) :: rest, key, h =>
      if k = key then (k, h) :: rest else (k, v) :: updateMap rest key h

/-- One iteration of the `merge_and_save` loop: register an unknown id at
the end of the dict, otherwise merge into the existing record. -/
def merge_and_save_step (m : HMap) (hotel : Hotel) : HMap :=
  match m.lookup hotel.id with
  | none => m ++ [(hotel.id, hotel)]
  | some existing => updateMap m hotel.id (mergeHotel existing hotel)

/-- `HotelsService.merge_and_save`: fold the supplier data into the dict
in input order. -/
def merge_and_save (m : HMap) (supplier_data : List Hotel) : HMap :=
  supplier_data.foldl merge_and_save_step m

/-- The in-memory service state: the merged hotel dict. -/
structure HotelsService where
  hotels : HMap
deriving DecidableEq

/-- `HotelsService.find`: filter the stored hotels by the two filter sets.
The method only reads `self.hotels`, so the embedding returns the state
unchanged next to the filtered list. -/
def HotelsService.find (svc : HotelsService) (hotel_ids destination_ids : List String) :
    HotelsService × List Hotel :=
  (svc,
   (svc.hotels.map Prod.snd).filter (fun hotel =>
     (hotel_ids.isEmpty || hotel_ids.contains hotel.id) &&
     (destination_ids.isEmpty || destination_ids.contains (toString hotel.destination_id))))

/-- Empty canonical location (all five fields null). -/
def locNone : Location :=
  { lat := .vnone, lng := .vnone, address := .vnone, city := .vnone, country := .vnone }

/-- Empty canonical image record. -/
def emptyImages : Images := { rooms := [], site := [], amenities := [] }

/-- Empty canonical amenity record. -/
def emptyAmenities : Amenities := { general := [], room := [] }

/-- Sample hotel: first record registered for id `iJhz`. -/
def hBase : Hotel :=
  { id := "iJhz", destination_id := 5432, name := "Beach Villas Singapore",
    description := "short", location := locNone, amenities := emptyAmenities,
    images := emptyImages, booking_conditions := [] }

/-- Sample hotel: a later record for id `iJhz` with an empty name, a longer
description and a present city. -/
def hParis : Hotel :=
  { hBase with
    name := ""
    description := "much longer text"
    location := { locNone with city := PyVal.vstr "Paris" } }

/-- Sample hotel with a different id and destination. -/
def hOther : Hotel :=
  { id := "SjyX", destination_id := 5433, name := "InterContinental",
    description := "", location := locNone, amenities := emptyAmenities,
    images := emptyImages, booking_conditions := [] }

/-- C1: merging a second record into an existing one with the same id fills
each location field independently: a present (truthy) existing value is
kept unchanged; an absent existing value adopts a present incoming value;
and no field is ever overwritten with an absent incoming value. -/
theorem merge_location_fieldwise_fill (e h : Hotel) (f : LocField) :
    ((mergeHotel e h).location.get f
        = mergeLocField (e.location.get f) (h.location.get f))
  ∧ (∀ a b : PyVal,
      (a.truthy = true → mergeLocField a b = a)
    ∧ (a.truthy = false → b.truthy = true → mergeLocField a b = b)
    ∧ (b.truthy = false → mergeLocField a b = a)) := by
  constructor
  · cases f <;> rfl
  · intro a b
    refine ⟨?_, ?_, ?_⟩
    · intro ha; simp [mergeLocField, ha]
    · intro ha hb; simp [mergeLocField, ha, hb]
    · intro hb; simp [mergeLocField, hb]

/-- Witness for C1 at concrete hotels: `hBase` has no city, the incoming
`hParis` has city Paris, so the merged record adopts Paris. -/
theorem merge_location_fieldwise_fill_witness :
    (mergeHotel hBase hParis).location.get LocField.city = PyVal.vstr "Paris" := by
  have h := merge_location_fieldwise_fill hBase hParis LocField.city
  rw [h.1,
    (h.2 (hBase.location.get LocField.city) (hParis.location.get LocField.city)).2.1
      (by decide) (by decide)]
  decide

/-- C2: the merged description is whichever of the two is textually longer
(the existing one is retained on a length tie), and when the two lengths
differ the outcome does not depend on the merge order. -/
theorem merge_description_longer_wins (e h : Hotel) :
    ((mergeHotel e h).description
        = if e.description.length < h.description.length then h.description
          else e.description)
  ∧ (e.description.length ≠ h.description.length →
      (mergeHotel e h).description = (mergeHotel h e).description) := by
  constructor
  · rfl
  · intro hne
    by_cases hlt : e.description.length < h.description.length
    · have hgt : ¬ h.description.length < e.description.length := by omega
      simp [mergeHotel, hlt, hgt]
    · have hgt : h.description.length < e.description.length := by omega
      simp [mergeHotel, hlt, hgt]

/-- Witness for C2 at concrete hotels with descriptions of different
lengths: both merge orders give the same description. -/
theorem merge_description_longer_wins_witness :
    (mergeHotel hBase hParis).description = (mergeHotel hParis hBase).description :=
  (merge_description_longer_wins hBase hParis).2 (by decide)

/-- C3: the merged name is the incoming record's name when that name is
non-empty, and the existing name otherwise — the later non-empty value
always wins. -/
theorem merge_name_later_nonempty_wins (e h : Hotel) :
    (h.name ≠ "" → (mergeHotel e h).name = h.name)
  ∧ (h.name = "" → (mergeHotel e h).name = e.name) := by
  constructor
  · intro hne; simp [mergeHotel, hne]
  · intro hemp; simp [mergeHotel, hemp]

/-- Witness for C3: a later non-empty name overwrites, and a later empty
name is ignored, at concrete hotels. -/
theorem merge_name_later_nonempty_wins_witness :
    (mergeHotel hParis hBase).name = hBase.name
  ∧ (mergeHotel hBase hParis).name = hBase.name :=
  ⟨(merge_name_later_nonempty_wins hParis hBase).1 (by decide),
   (merge_name_later_nonempty_wins hBase hParis).2 (by decide)⟩

/-- C9: `find` is a read-only query — it returns the service state with
the hotel dict (keys and every hotel field) unchanged. -/
theorem find_leaves_state_unchanged (svc : HotelsService)
    (hotel_ids destination_ids : List String) :
    (svc.find hotel_ids destination_ids).1 = svc := rfl

/-- C10: the compound-word normalizer turns `WiFi` into `wi fi`, which is
not the vocabulary entry `wifi`, so the Acme classifier drops the facility
`WiFi` from both amenity sets. -/
theorem camel_to_snake_wifi_dropped :
    camel_to_snake_case "WiFi" = "wi fi"
  ∧ "wi fi" ≠ "wifi"
  ∧ "wi fi" ∉ GENERAL_AMENITIES
  ∧ "wi fi" ∉ ROOM_AMENITIES
  ∧ acmeParseAmenities ["WiFi"] = { general := [], room := [] } := by decide

/-- Sample service holding two hotels with different destinations. -/
def svcEx : HotelsService := { hotels := [("iJhz", hBase), ("SjyX", hOther)] }

/-- C7: a hotel is returned by `find` iff it is stored and each non-empty
filter set contains the respective key (`hotel_ids` matched against the
id, `destination_ids` against the string form of the destination id); an
empty filter matches everything, so with empty `hotel_ids` and non-empty
`destination_ids` the result is exactly the destination-matching hotels. -/
theorem find_membership_iff (svc : HotelsService)
    (hotel_ids destination_ids : List String) (h : Hotel) :
    (h ∈ (svc.find hotel_ids destination_ids).2 ↔
      h ∈ svc.hotels.map Prod.snd
      ∧ (hotel_ids = [] ∨ h.id ∈ hotel_ids)
      ∧ (destination_ids = [] ∨ toString h.destination_id ∈ destination_ids))
  ∧ (hotel_ids = [] → destination_ids ≠ [] →
      (svc.find hotel_ids destination_ids).2
        = (svc.hotels.map Prod.snd).filter
            (fun hotel => toString hotel.destination_id ∈ destination_ids)) := by
  constructor
  · simp only [HotelsService.find, List.mem_filter, Bool.and_eq_true, Bool.or_eq_true,
      List.isEmpty_iff, List.elem_iff, decide_eq_true_eq]
  · intro hid hdest
    subst hid
    simp only [HotelsService.find, List.isEmpty_nil, Bool.true_or, Bool.true_and]
    apply List.filter_congr
    intro x _
    have hie : destination_ids.isEmpty = false := by
      cases destination_ids with
      | nil => exact absurd rfl hdest
      | cons a t => rfl
    rw [hie, Bool.false_or]
    by_cases hm : toString x.destination_id ∈ destination_ids
    · simp [hm, List.elem_iff]
    · simp [hm, List.elem_iff]

/-- Witness for C7: querying the sample service with empty `hotel_ids` and
destination filter `5432` returns exactly the destination-matching hotels. -/
theorem find_membership_iff_witness :
    (svcEx.find [] ["5432"]).2
      = (svcEx.hotels.map Prod.snd).filter
          (fun hotel => toString hotel.destination_id ∈ ["5432"]) :=
  (find_membership_iff svcEx [] ["5432"] hBase).2 rfl (by decide)

/-- Unfold one step of association-list lookup as an if-then-else. -/
theorem lookup_cons (k k0 : String) (v0 : Hotel) (t : HMap) :
    ((k0, v0) :: t).lookup k = if k = k0 then some v0 else t.lookup k := by
  by_cases h : k = k0
  · simp [List.lookup, h]
  · have hb : (k == k0) = false := beq_eq_false_iff_ne.mpr h
    simp [List.lookup, hb, h]

/-- Appending entries on the right does not change a successful lookup. -/
theorem lookup_append_left (m l : HMap) (k : String) (h : Hotel)
    (hl : m.lookup k = some h) : (m ++ l).lookup k = some h := by
  induction m with
  | nil => simp [List.lookup] at hl
  | cons p t ih =>
    obtain ⟨k0, v0⟩ := p
    rw [List.cons_append]
    rw [lookup_cons] at hl ⊢
    by_cases hk : k = k0
    · rw [if_pos hk] at hl ⊢; exact hl
    · rw [if_neg hk] at hl ⊢; exact ih hl

/-- Updating the stored key makes lookup return the new value. -/
theorem lookup_updateMap_self (m : HMap) (k : String) (e h : Hotel)
    (hl : m.lookup k = some e) : (updateMap m k h).lookup k = some h := by
  induction m with
  | nil => simp [List.lookup] at hl
  | cons p t ih =>
    obtain ⟨k0, v0⟩ := p
    rw [lookup_cons] at hl
    by_cases hk : k = k0
    · subst hk
      simp [updateMap, lookup_cons]
    · have hk0 : k0 ≠ k := fun hh => hk hh.symm
      rw [if_neg hk] at hl
      simp only [updateMap, if_neg hk0]
      rw [lookup_cons, if_neg hk]
      exact ih hl

/-- Updating a different key does not change a lookup. -/
theorem lookup_updateMap_ne (m : HMap) (k key : String) (h : Hotel)
    (hne : k ≠ key) : (updateMap m key h).lookup k = m.lookup k := by
  induction m with
  | nil => rfl
  | cons p t ih =>
    obtain ⟨k0, v0⟩ := p
    by_cases hk0 : k0 = key
    · subst hk0
      have hup : updateMap ((k0, v0) :: t) k0 h = (k0, h) :: t := by simp [updateMap]
      rw [hup, lookup_cons, lookup_cons, if_neg hne, if_neg hne]
    · simp only [updateMap, if_neg hk0]
      rw [lookup_cons, lookup_cons]
      by_cases hk : k = k0
      · rw [if_pos hk, if_pos hk]
      · rw [if_neg hk, if_neg hk]
        exact ih

/-- The merge branch inherits the existing record's id. -/
theorem mergeHotel_id (e h : Hotel) : (mergeHotel e h).id = e.id := rfl

/-- The merge branch inherits the existing record's destination id. -/
theorem mergeHotel_dest (e h : Hotel) :
    (mergeHotel e h).destination_id = e.destination_id := rfl

/-- Unfold `merge_and_save` over a cons. -/
theorem merge_and_save_cons (m : HMap) (x : Hotel) (t : List Hotel) :
    merge_and_save m (x :: t) = merge_and_save (merge_and_save_step m x) t := rfl

/-- C8: once an id is registered, no later merge alters the stored record's
`id` or `destination_id` — both keep the value from the record first
registered for that id. -/
theorem merge_preserves_id_and_destination (m : HMap) (data : List Hotel)
    (k : String) (h : Hotel) (hk : m.lookup k = some h) :
    ∃ h', (merge_and_save m data).lookup k = some h'
      ∧ h'.id = h.id ∧ h'.destination_id = h.destination_id := by
  induction data generalizing m h with
  | nil => exact ⟨h, hk, rfl, rfl⟩
  | cons x t ih =>
    rw [merge_and_save_cons]
    cases hlx : m.lookup x.id with
    | none =>
      have hstep : merge_and_save_step m x = m ++ [(x.id, x)] := by
        simp [merge_and_save_step, hlx]
      rw [hstep]
      exact ih (m ++ [(x.id, x)]) h (lookup_append_left m [(x.id, x)] k h hk)
    | some e =>
      have hstep : merge_and_save_step m x = updateMap m x.id (mergeHotel e x) := by
        simp [merge_and_save_step, hlx]
      rw [hstep]
      by_cases hkx : k = x.id
      · subst hkx
        have he : e = h := Option.some.inj (hlx.symm.trans hk)
        obtain ⟨h', hl', hid', hdest'⟩ :=
          ih (updateMap m x.id (mergeHotel e x)) (mergeHotel e x)
            (lookup_updateMap_self m x.id e (mergeHotel e x) hlx)
        exact ⟨h', hl', by rw [hid', mergeHotel_id, he],
          by rw [hdest', mergeHotel_dest, he]⟩
      · exact ih (updateMap m x.id (mergeHotel e x)) h
          (by rw [lookup_updateMap_ne m k x.id (mergeHotel e x) hkx]; exact hk)

/-- Witness for C8: merging a second record for `iJhz` into a service that
already holds `hBase` leaves id and destination id at `hBase`'s values. -/
theorem merge_preserves_id_and_destination_witness :
    ∃ h', (merge_and_save [("iJhz", hBase)] [hParis]).lookup "iJhz" = some h'
      ∧ h'.id = hBase.id ∧ h'.destination_id = hBase.destination_id :=
  merge_preserves_id_and_destination [("iJhz", hBase)] [hParis] "iJhz" hBase (by decide)

/-- Collapsing duplicates in a duplicate-free list doubled onto itself
gives the list back. -/
theorem dedup_self_append [DecidableEq α] (l : List α) (hnd : l.Nodup) :
    (l ++ l).dedup = l := by
  rw [List.Subset.dedup_append_right (List.Subset.refl l)]
  exact List.dedup_eq_self.mpr hnd

/-- Filtering a list for elements not in itself gives the empty list. -/
theorem filter_not_mem_self [DecidableEq α] (l : List α) :
    (l.filter fun x => x ∉ l) = [] := by
  apply List.filter_eq_nil_iff.mpr
  intro a ha
  simp [ha]

/-- Merging a record into itself is the identity, provided its amenity
lists and booking conditions carry no duplicates (the `list(set(...))`
steps are then the identity; every other field rule is unconditionally
idempotent). -/
theorem mergeHotel_self (h : Hotel)
    (hg : h.amenities.general.Nodup) (hr : h.amenities.room.Nodup)
    (hb : h.booking_conditions.Nodup) :
    mergeHotel h h = h := by
  obtain ⟨i, d, n, desc, loc, amen, imgs, bc⟩ := h
  obtain ⟨lat, lng, addr, city, country⟩ := loc
  obtain ⟨g, r⟩ := amen
  obtain ⟨ir, isite, ia⟩ := imgs
  simp only [Amenities.general, Amenities.room, Hotel.amenities,
    Hotel.booking_conditions] at hg hr hb
  simp [mergeHotel, mergeLocation, mergeLocField, pyListSet,
    dedup_self_append g hg, dedup_self_append r hr, dedup_self_append bc hb,
    filter_not_mem_self]

/-- Folding with a function that fixes the accumulator on every element of
the list fixes the fold. -/
theorem foldl_fixed (f : HMap → Hotel → HMap) (m : HMap) (l : List Hotel)
    (hf : ∀ x ∈ l, f m x = m) : l.foldl f m = m := by
  induction l with
  | nil => rfl
  | cons x t ih =>
    rw [List.foldl_cons, hf x (List.mem_cons_self x t)]
    exact ih fun y hy => hf y (List.mem_cons_of_mem x hy)

/-- In a dict with duplicate-free keys, lookup finds any stored pair. -/
theorem lookup_of_mem_keysNodup (m : HMap) (k : String) (h : Hotel)
    (hnd : (m.map Prod.fst).Nodup) (hmem : (k, h) ∈ m) :
    m.lookup k = some h := by
  induction m with
  | nil => cases hmem
  | cons p t ih =>
    obtain ⟨k0, v0⟩ := p
    simp only [List.map_cons, List.nodup_cons] at hnd
    rw [lookup_cons]
    rcases List.mem_cons.mp hmem with heq | hmem'
    · cases heq
      rw [if_pos rfl]
    · have hk : k ≠ k0 := by
        intro hkk
        subst hkk
        exact hnd.1 (List.mem_map.mpr ⟨(k, h), hmem', rfl⟩)
      rw [if_neg hk]
      exact ih hnd.2 hmem'

/-- Writing back the value already stored at a key leaves the dict
unchanged. -/
theorem updateMap_lookup_self_eq (m : HMap) (k : String) (h : Hotel)
    (hl : m.lookup k = some h) : updateMap m k h = m := by
  induction m with
  | nil => rfl
  | cons p t ih =>
    obtain ⟨k0, v0⟩ := p
    rw [lookup_cons] at hl
    by_cases hk : k = k0
    · rw [if_pos hk] at hl
      injection hl with hv
      subst hk
      simp [updateMap, hv]
    · rw [if_neg hk] at hl
      have hk0 : k0 ≠ k := fun hh => hk hh.symm
      simp [updateMap, hk0, ih hl]

/-- C4 (amended): re-merging a merged mapping's own entities back into it
is a no-op provided the mapping's keys are duplicate-free, each key equals
its hotel's id (both hold for every mapping `merge_and_save` builds), and
each stored hotel's amenity lists and booking conditions are
duplicate-free; every field is then a fixed point of the per-field rules. -/
theorem remerge_noop_of_nodup (m : HMap)
    (hkeys : (m.map Prod.fst).Nodup)
    (hid : ∀ p ∈ m, Prod.fst p = (Prod.snd p).id)
    (hnd : ∀ p ∈ m, (Prod.snd p).amenities.general.Nodup
        ∧ (Prod.snd p).amenities.room.Nodup
        ∧ (Prod.snd p).booking_conditions.Nodup) :
    merge_and_save m (m.map Prod.snd) = m := by
  unfold merge_and_save
  apply foldl_fixed
  intro x hx
  obtain ⟨p, hp, rfl⟩ := List.mem_map.mp hx
  have hmem : (p.2.id, p.2) ∈ m := by
    rw [← hid p hp, Prod.mk.eta]
    exact hp
  have hlook : m.lookup p.2.id = some p.2 := lookup_of_mem_keysNodup m _ _ hkeys hmem
  have hfix : mergeHotel p.2 p.2 = p.2 :=
    mergeHotel_self p.2 (hnd p hp).1 (hnd p hp).2.1 (hnd p hp).2.2
  simp [merge_and_save_step, hlook, hfix, updateMap_lookup_self_eq m _ _ hlook]

/-- A hotel carrying a duplicated amenity entry, as a single supplier
record can (the first registration stores the record unchanged). -/
def hDup : Hotel :=
  { hBase with amenities := { general := ["breakfast", "breakfast"], room := [] } }

/-- The merged mapping produced from that single record. -/
def mDup : HMap := merge_and_save [] [hDup]

/-- Counterexample to C4 as stated: the mapping produced by
`merge_and_save` from one record with a duplicated amenity entry is not a
fixed point of re-merging — the duplicate gets collapsed, changing the
stored amenity list. -/
theorem remerge_changes_duplicated_amenities :
    merge_and_save mDup (mDup.map Prod.snd) ≠ mDup := by decide

/-- A duplicate-free merged mapping used as the witness input. -/
def mOK : HMap := merge_and_save [] [hBase, hOther]

/-- Witness for amended C4 at a concrete duplicate-free merged mapping. -/
theorem remerge_noop_of_nodup_witness :
    merge_and_save mOK (mOK.map Prod.snd) = mOK :=
  remerge_noop_of_nodup mOK (by decide) (by decide) (by decide)

/-- A Paperflies record whose pre-classified amenities hold a value
outside the fixed vocabularies. -/
def pfBadDto : PaperfliesDto :=
  { hotel_id := "iJhz", destination_id := 5432,
    hotel_name := "Beach Villas Singapore", details := none,
    location := .absent,
    amenities := some { general := ["not an amenity"], room := [] },
    images := none, booking_conditions := none }

/-- An Acme record that lists the same facility twice. -/
def acmeDupDto : AcmeDto :=
  { Id := "iJhz", DestinationId := 5432, Name := "Beach Villas Singapore",
    Description := none, Latitude := .vnone, Longitude := .vnone,
    Address := none, PostalCode := none, City := .vnone, Country := .vnone,
    Facilities := some ["Breakfast", "Breakfast"] }

/-- Counterexample to C5 as stated: Paperflies passes its amenities dict
through unchanged, so a non-vocabulary value reaches the canonical entity;
and Acme appends one entry per listed facility, so a duplicated facility
yields a duplicated amenity entry. -/
theorem amenities_vocabulary_counterexample :
    ((Paperflies.parse pfBadDto).map (fun h => h.amenities.general)
        = some ["not an amenity"])
  ∧ "not an amenity" ∉ GENERAL_AMENITIES
  ∧ (Acme.parse acmeDupDto).amenities.general = ["breakfast", "breakfast"]
  ∧ ¬ (["breakfast", "breakfast"] : List String).Nodup := by decide

/-- C5 (amended): hotels produced by the Acme or Patagonia parse draw
`amenities.general` only from the GENERAL vocabulary and `amenities.room`
only from the ROOM vocabulary (duplicates may occur when the input repeats
a facility); the reconciliation merge produces duplicate-free amenity
lists whose members come from its two inputs; Paperflies passes amenities
through unchanged, so no vocabulary or duplicate guarantee holds there. -/
theorem amenities_vocabulary_amended :
    (∀ dto : AcmeDto, ∀ x : String,
        (x ∈ (Acme.parse dto).amenities.general → x ∈ GENERAL_AMENITIES)
      ∧ (x ∈ (Acme.parse dto).amenities.room → x ∈ ROOM_AMENITIES))
  ∧ (∀ dto : PatagoniaDto, ∀ x : String,
        (x ∈ (Patagonia.parse dto).amenities.general → x ∈ GENERAL_AMENITIES)
      ∧ (x ∈ (Patagonia.parse dto).amenities.room → x ∈ ROOM_AMENITIES))
  ∧ (∀ e h : Hotel,
        (mergeHotel e h).amenities.general.Nodup
      ∧ (mergeHotel e h).amenities.room.Nodup
      ∧ (∀ x ∈ (mergeHotel e h).amenities.general,
            x ∈ e.amenities.general ∨ x ∈ h.amenities.general)
      ∧ (∀ x ∈ (mergeHotel e h).amenities.room,
            x ∈ e.amenities.room ∨ x ∈ h.amenities.room)) := by
  refine ⟨?_, ?_, ?_⟩
  · intro dto x
    constructor
    · intro hx
      simp only [Acme.parse, acmeParseAmenities, List.mem_filter,
        decide_eq_true_eq] at hx
      exact hx.2
    · intro hx
      simp only [Acme.parse, acmeParseAmenities, List.mem_filter,
        decide_eq_true_eq] at hx
      exact hx.2
  · intro dto x
    constructor
    · intro hx
      simp only [Patagonia.parse, patagoniaParseAmenities, List.mem_filter,
        decide_eq_true_eq] at hx
      exact hx.2
    · intro hx
      simp only [Patagonia.parse, patagoniaParseAmenities, List.mem_filter,
        decide_eq_true_eq] at hx
      exact hx.2
  · intro e h
    refine ⟨?_, ?_, ?_, ?_⟩
    · simp only [mergeHotel, pyListSet]
      exact List.nodup_dedup _
    · simp only [mergeHotel, pyListSet]
      exact List.nodup_dedup _
    · intro x hx
      simp only [mergeHotel, pyListSet, List.mem_dedup, List.mem_append] at hx
      exact hx
    · intro x hx
      simp only [mergeHotel, pyListSet, List.mem_dedup, List.mem_append] at hx
      exact hx

/-- Witness for amended C5: the duplicated-facility Acme record's amenity
entry is indeed in the GENERAL vocabulary. -/
theorem amenities_vocabulary_amended_witness :
    "breakfast" ∈ GENERAL_AMENITIES :=
  (amenities_vocabulary_amended.1 acmeDupDto "breakfast").1 (by decide)

/-- A Paperflies record whose optional fields are all null or absent, with
`location` present as null. -/
def pfNullLocDto : PaperfliesDto :=
  { hotel_id := "iJhz", destination_id := 5432,
    hotel_name := "Beach Villas Singapore", details := none,
    location := .null, amenities := none, images := none,
    booking_conditions := none }

/-- Counterexample to C6 as stated: on a Paperflies record whose optional
fields are all null or absent — `location` carrying null — parsing raises
(`None` has no `.get`) instead of yielding a Hotel with defaulted fields. -/
theorem paperflies_null_location_crashes :
    Paperflies.parse pfNullLocDto = none := rfl

/-- Acme record with all optional values null. -/
def acmeEmptyDto (i : String) (d : Int) (n : String) : AcmeDto :=
  { Id := i, DestinationId := d, Name := n, Description := none,
    Latitude := .vnone, Longitude := .vnone, Address := none,
    PostalCode := none, City := .vnone, Country := .vnone,
    Facilities := none }

/-- Paperflies record with every optional field missing in the form the
adapter's accessors tolerate: null for the `or`-defaulted fields, absent
for the `.get`-defaulted ones. -/
def pfEmptyDto (i : String) (d : Int) (n : String) : PaperfliesDto :=
  { hotel_id := i, destination_id := d, hotel_name := n, details := none,
    location := .absent, amenities := none, images := none,
    booking_conditions := none }

/-- Patagonia record with all optional values null. -/
def patEmptyDto (i : String) (d : Int) (n : String) : PatagoniaDto :=
  { id := i, destination := d, name := n, info := none, lat := .vnone,
    lng := .vnone, address := .vnone, amenities := none, images := none }

/-- C6 (amended): for every adapter, parsing a record whose optional
fields are all missing in the form that adapter's accessors tolerate
(null for fields read with null-coalescing `or`; absent for fields read
with a defaulted `.get`) yields a Hotel whose text fields are empty
strings and whose collection fields are empty collections — never null. -/
theorem adapters_default_absent_optionals (i : String) (d : Int) (n : String) :
    ((Acme.parse (acmeEmptyDto i d n)).description = ""
      ∧ (Acme.parse (acmeEmptyDto i d n)).location.address = PyVal.vstr ""
      ∧ (Acme.parse (acmeEmptyDto i d n)).amenities = emptyAmenities
      ∧ (Acme.parse (acmeEmptyDto i d n)).images = emptyImages
      ∧ (Acme.parse (acmeEmptyDto i d n)).booking_conditions = [])
  ∧ ((Paperflies.parse (pfEmptyDto i d n)).map Hotel.description = some ""
      ∧ (Paperflies.parse (pfEmptyDto i d n)).map Hotel.amenities = some emptyAmenities
      ∧ (Paperflies.parse (pfEmptyDto i d n)).map Hotel.images = some emptyImages
      ∧ (Paperflies.parse (pfEmptyDto i d n)).map Hotel.booking_conditions = some [])
  ∧ ((Patagonia.parse (patEmptyDto i d n)).description = ""
      ∧ (Patagonia.parse (patEmptyDto i d n)).amenities = emptyAmenities
      ∧ (Patagonia.parse (patEmptyDto i d n)).images = emptyImages
      ∧ (Patagonia.parse (patEmptyDto i d n)).booking_conditions = []) := by
  exact ⟨⟨rfl, rfl, rfl, rfl, rfl⟩, ⟨rfl, rfl, rfl, rfl⟩, ⟨rfl, rfl, rfl, rfl⟩⟩
